import Mathlib

/-!
# Verification of the automation-framework core logic

Shallow embedding of the decision logic of the Nykaa browser/API test
framework: the price extractor (`BasePage.parse_price`), the cart pricing
reconciler (`CartPage.validate_pricing`), the retry decorator
(`utils/retry.py`), the HTTP request wrapper (`ApiClient._request`), the
cross-layer price check (`test_cross_layer.py`), and the document-ready
polling condition (`utils/waits.py`).

Prices are modelled by exact rationals (`ℚ`); the Python code computes with
floats, but every property at issue is plain comparison arithmetic
(sums, absolute difference, fixed 1.0 tolerance), faithfully mirrored by
`ℚ`.  Python code that can raise is modelled with `Option`: `none` is a
raised exception, `some v` a returned value.
-/

/-- Numeric value of a list of ASCII digit characters, most significant
first, as computed by Python `int`/`float` on the integer part. -/
def natOfDigits (cs : List Char) : Nat :=
  cs.foldl (fun a c => 10 * a + (c.toNat - 48)) 0

/-- The numeric value Python `float` assigns to a well-formed string of
digits with at most one decimal point: integer part plus fractional part
scaled by a power of ten. -/
def floatVal (cs : List Char) : ℚ :=
  let w := cs.takeWhile (fun c => c != '.')
  let f := (cs.dropWhile (fun c => c != '.')).tail
  (natOfDigits w : ℚ) + (natOfDigits f : ℚ) / 10 ^ f.length

/-- Model of Python `float(s)` restricted to strings made of digits and
decimal points (the only strings `parse_price` feeds it): the call
succeeds exactly when there is at most one decimal point and at least one
digit; otherwise it raises `ValueError` (modelled as `none`). -/
def pyFloat (cs : List Char) : Option ℚ :=
  if (cs.all fun c => c.isDigit || c == '.') ∧ cs.count '.' ≤ 1 ∧ (cs.any fun c => c.isDigit) then
    some (floatVal cs)
  else
    none

/-- Embedding of `BasePage.parse_price` (src/core/base_page.py:232-235):
`cleaned = re.sub(r"[^\d.]", "", text); return float(cleaned) if cleaned
else 0.0`.  `none` models a `ValueError` escaping from `float`. -/
def parse_price (text : String) : Option ℚ :=
  let cleaned := text.toList.filter fun c => c.isDigit || c == '.'
  if cleaned.isEmpty then some 0 else pyFloat cleaned

example : parse_price "₹1299" = some 1299 := by
  simp +decide [parse_price, pyFloat, floatVal, natOfDigits, List.filter]
example : parse_price "1299.50" = some (25990 / 20) := by
  simp +decide [parse_price, pyFloat, floatVal, natOfDigits, List.filter,
    List.takeWhile, List.dropWhile]
  norm_num
example : parse_price "" = some 0 := by decide
example : parse_price "Rs 1,299" = some 1299 := by
  simp +decide [parse_price, pyFloat, floatVal, natOfDigits, List.filter]

/-- C2: the code's own docstring example `"Rs. 1,299"` does NOT yield
`1299.0`: the regex keeps the `.` of `"Rs."`, so the stripped remainder is
`".1299"` and `float` returns `0.1299`.  This theorem evaluates the
embedded code at that failing input. -/
theorem parse_price_rs_label_bug : parse_price "Rs. 1,299" = some (1299 / 10000) := by
  simp +decide [parse_price, pyFloat, floatVal, natOfDigits, List.filter,
    List.takeWhile, List.dropWhile]
  norm_num

/-- C3 counterexample: on a stripped remainder with more than one decimal
point, `float` raises `ValueError` and `parse_price` lets it propagate
(modelled `none`); it does not return `0.0` as the claim states. -/
theorem parse_price_multidot_counterexample :
    parse_price "1.2.3" = none ∧ parse_price "1.2.3" ≠ some 0 := by
  constructor
  · decide
  · decide

/-- C3 (amended): for every input whose stripped remainder contains more
than one decimal point, `parse_price` raises the parse failure (modelled
`none`) rather than returning `0.0`. -/
theorem parse_price_multidot_raises (text : String)
    (h : 1 < ((text.toList.filter fun c => c.isDigit || c == '.').count '.')) :
    parse_price text = none := by
  unfold parse_price
  set cleaned := text.toList.filter fun c => c.isDigit || c == '.' with hc
  have hne : ¬ cleaned.isEmpty := by
    intro he
    rw [List.isEmpty_iff] at he
    rw [he] at h
    simp [List.count_nil] at h
  simp only [hne, if_false, Bool.false_eq_true]
  unfold pyFloat
  have hcount : ¬ (cleaned.count '.' ≤ 1) := by omega
  simp [hcount]

/-- C3 witness: the amended behaviour at the concrete input `"1.2.3"`. -/
theorem parse_price_multidot_raises_witness : parse_price "1.2.3" = none :=
  parse_price_multidot_raises "1.2.3" (by decide)

/-! ## Cart pricing reconciler (src/pages/cart_page.py) -/

/-- Embedding of the `PricingBreakdown` dataclass
(src/pages/cart_page.py:29-37). -/
structure PricingBreakdown where
  item_prices : List ℚ
  displayed_total : ℚ
  calculated_sum : ℚ
  difference : ℚ
  is_consistent : Bool
deriving DecidableEq

/-- The breakdown computation of `CartPage.validate_pricing`
(src/pages/cart_page.py:107-116): sum the item prices, take the absolute
difference from the displayed total, and flag consistency at the fixed
`< 1.0` tolerance. -/
def makeBreakdown (item_prices : List ℚ) (total : ℚ) : PricingBreakdown :=
  let calculated_sum := item_prices.sum
  let difference := |total - calculated_sum|
  { item_prices := item_prices
    displayed_total := total
    calculated_sum := calculated_sum
    difference := difference
    is_consistent := decide (difference < 1) }

/-- What the cart page shows the scraper: the text of every element
matching the item-price locator, and the text of the total element. -/
structure CartView where
  item_price_labels : List String
  total_label : String

/-- Embedding of `CartPage.get_item_prices` (src/pages/cart_page.py:75-83):
parse each price label, keep only those strictly greater than zero.  A
parse failure propagates (`none`). -/
def get_item_prices : List String → Option (List ℚ)
  | [] => some []
  | l :: ls =>
    match parse_price l with
    | none => none
    | some p =>
      match get_item_prices ls with
      | none => none
      | some ps => some (if 0 < p then p :: ps else ps)

/-- Embedding of `CartPage.get_cart_total` (src/pages/cart_page.py:70-73). -/
def get_cart_total (c : CartView) : Option ℚ :=
  parse_price c.total_label

/-- Embedding of `CartPage.validate_pricing` (src/pages/cart_page.py:99-126):
read the item prices and the displayed total, then build the breakdown.
A parse failure in either read propagates. -/
def validate_pricing (c : CartView) : Option PricingBreakdown :=
  match get_item_prices c.item_price_labels with
  | none => none
  | some item_prices =>
    match get_cart_total c with
    | none => none
    | some total => some (makeBreakdown item_prices total)

/-- C1: every breakdown produced by `validate_pricing` has
`calculated_sum` equal to the sum of its item prices, `difference` equal
to `|displayed_total - calculated_sum|`, and `is_consistent` true iff the
difference is strictly below the 1.0 tolerance (so exactly 1.0 or above
gives false). -/
theorem validate_pricing_consistent (c : CartView) (b : PricingBreakdown)
    (h : validate_pricing c = some b) :
    b.calculated_sum = b.item_prices.sum ∧
    b.difference = |b.displayed_total - b.calculated_sum| ∧
    (b.is_consistent = true ↔ b.difference < 1) := by
  unfold validate_pricing at h
  split at h
  · exact absurd h (by simp)
  · split at h
    · exact absurd h (by simp)
    · injection h with h
      subst h
      exact ⟨rfl, rfl, by simp [makeBreakdown]⟩

/-- C1 witness: a one-item cart whose total matches exactly. -/
theorem validate_pricing_consistent_witness :
    (PricingBreakdown.mk [350] 350 350 0 true).calculated_sum =
      (PricingBreakdown.mk [350] 350 350 0 true).item_prices.sum ∧
    (PricingBreakdown.mk [350] 350 350 0 true).difference =
      |(PricingBreakdown.mk [350] 350 350 0 true).displayed_total -
        (PricingBreakdown.mk [350] 350 350 0 true).calculated_sum| ∧
    ((PricingBreakdown.mk [350] 350 350 0 true).is_consistent = true ↔
      (PricingBreakdown.mk [350] 350 350 0 true).difference < 1) :=
  validate_pricing_consistent ⟨["₹350"], "₹350"⟩ ⟨[350], 350, 350, 0, true⟩
    (by simp +decide [validate_pricing, get_item_prices, get_cart_total, parse_price,
      pyFloat, floatVal, natOfDigits, makeBreakdown, List.filter])

/-- C10 counterexample: a cart item whose label strips to more than one
decimal point is not "silently dropped": the `ValueError` from `float`
propagates out of `get_item_prices` (modelled `none`), so `validate_pricing`
fails instead of returning a breakdown that excludes the item. -/
theorem validate_pricing_unparsable_counterexample :
    validate_pricing ⟨["1.2.3"], "₹5"⟩ = none := by decide

/-- Helper for C10: lists accepted by `get_item_prices` contain only
strictly positive prices. -/
theorem get_item_prices_pos (ls : List String) (ps : List ℚ)
    (h : get_item_prices ls = some ps) : ∀ p ∈ ps, 0 < p := by
  induction ls generalizing ps with
  | nil =>
    unfold get_item_prices at h
    injection h with h
    subst h
    simp
  | cons l ls ih =>
    unfold get_item_prices at h
    cases hp : parse_price l with
    | none => simp only [hp] at h; exact Option.noConfusion h
    | some p =>
      simp only [hp] at h
      cases hps' : get_item_prices ls with
      | none => simp only [hps'] at h; exact Option.noConfusion h
      | some ps' =>
        simp only [hps', Option.some.injEq] at h
        subst h
        intro q hq
        by_cases h0 : 0 < p
        · simp only [h0, if_true, List.mem_cons] at hq
          rcases hq with rfl | hq
          · exact h0
          · exact ih ps' hps' q hq
        · simp only [h0, if_false] at hq
          exact ih ps' hps' q hq

/-- Helper for C10: a label that fails to parse makes `get_item_prices`
fail. -/
theorem get_item_prices_fail (ls : List String) (l : String)
    (hmem : l ∈ ls) (hl : parse_price l = none) :
    get_item_prices ls = none := by
  induction ls with
  | nil => cases hmem
  | cons a ls ih =>
    unfold get_item_prices
    rcases List.mem_cons.mp hmem with rfl | hmem'
    · simp [hl]
    · split
      · rfl
      · rw [ih hmem']

/-- C10 (amended): every element of `item_prices` in a breakdown produced
by `validate_pricing` is strictly positive (items parsing to 0.0, such as
empty labels, are silently dropped); but a label that fails to parse
(more than one decimal point) raises instead of being dropped. -/
theorem validate_pricing_item_prices_positive :
    (∀ (c : CartView) (b : PricingBreakdown), validate_pricing c = some b →
      ∀ p ∈ b.item_prices, 0 < p) ∧
    (∀ c : CartView, (∃ l ∈ c.item_price_labels, parse_price l = none) →
      validate_pricing c = none) := by
  constructor
  · intro c b h
    unfold validate_pricing at h
    split at h
    · exact absurd h (by simp)
    · split at h
      · exact absurd h (by simp)
      · injection h with h
        subst h
        rename_i ps hps _ _ _
        exact get_item_prices_pos _ _ hps
  · intro c ⟨l, hmem, hl⟩
    unfold validate_pricing
    rw [get_item_prices_fail c.item_price_labels l hmem hl]

/-- C10 witness: a cart with an empty second label (parses to 0, dropped)
yields only positive prices; a multi-dot label makes the whole validation
fail. -/
theorem validate_pricing_item_prices_positive_witness :
    (∀ p ∈ (PricingBreakdown.mk [120] 120 120 0 true).item_prices, 0 < p) ∧
    validate_pricing ⟨["1.2.3", "₹9"], "₹5"⟩ = none :=
  ⟨validate_pricing_item_prices_positive.1 ⟨["₹120", ""], "₹120"⟩
      ⟨[120], 120, 120, 0, true⟩
      (by simp +decide [validate_pricing, get_item_prices, get_cart_total, parse_price,
        pyFloat, floatVal, natOfDigits, makeBreakdown, List.filter]),
    validate_pricing_item_prices_positive.2 ⟨["1.2.3", "₹9"], "₹5"⟩
      ⟨"1.2.3", by simp, by decide⟩⟩

/-! ## Retry decorator (src/utils/retry.py) -/

/-- A Python exception as the retry wrapper sees it: its class (kind) and
its message.  Propagating "unchanged" means propagating the very same
kind and message. -/
structure PyExc where
  kind : String
  msg : String
deriving DecidableEq

/-- Outcome of one invocation of the wrapped operation. -/
inductive CallOutcome (α : Type) where
  | ok (v : α)
  | exn (e : PyExc)
deriving DecidableEq

/-- Outcome of the whole wrapped call: a returned value, a raised
exception, or the `raise None` `TypeError` hit when `max_attempts = 0`
leaves `last_exception` unset. -/
inductive RetryResult (α : Type) where
  | value (v : α)
  | raised (e : PyExc)
  | raisedNone
deriving DecidableEq

/-- Observable trace of a retry-wrapped call: its result, how many times
the operation was invoked, and how many times `time.sleep(delay)` ran. -/
structure RetryTrace (α : Type) where
  result : RetryResult α
  calls : Nat
  sleeps : Nat
deriving DecidableEq

/-- The `for attempt in range(1, max_attempts + 1)` loop of `retry`
(src/utils/retry.py:41-64), with `fuel` the number of attempts left and
`last` the `last_exception` variable.  The operation is a function of the
attempt number; an exception whose kind is not in `retryable` escapes the
`except` clause at once; a retryable one sleeps only when attempts
remain (`attempt < max_attempts`). -/
def retryLoop (op : Nat → CallOutcome α) (retryable : List String) :
    Nat → Nat → Option PyExc → RetryTrace α
  | _, 0, last =>
    { result := match last with
        | some e => RetryResult.raised e
        | none => RetryResult.raisedNone
      calls := 0
      sleeps := 0 }
  | attempt, fuel + 1, _ =>
    match op attempt with
    | CallOutcome.ok v => { result := RetryResult.value v, calls := 1, sleeps := 0 }
    | CallOutcome.exn e =>
      if e.kind ∈ retryable then
        if fuel = 0 then
          { result := RetryResult.raised e, calls := 1, sleeps := 0 }
        else
          let rest := retryLoop op retryable (attempt + 1) fuel (some e)
          { result := rest.result, calls := rest.calls + 1, sleeps := rest.sleeps + 1 }
      else
        { result := RetryResult.raised e, calls := 1, sleeps := 0 }

/-- Embedding of the `retry` decorator applied to an operation
(src/utils/retry.py:39-66): run the attempt loop starting at attempt 1. -/
def retry (max_attempts : Nat) (retryable : List String)
    (op : Nat → CallOutcome α) : RetryTrace α :=
  retryLoop op retryable 1 max_attempts none

/-- Unfolding equation for one iteration of the attempt loop. -/
theorem retryLoop_succ_eq (op : Nat → CallOutcome α) (retryable : List String)
    (attempt fuel : Nat) (last : Option PyExc) :
    retryLoop op retryable attempt (fuel + 1) last =
      match op attempt with
      | CallOutcome.ok v => { result := RetryResult.value v, calls := 1, sleeps := 0 }
      | CallOutcome.exn e =>
        if e.kind ∈ retryable then
          if fuel = 0 then
            { result := RetryResult.raised e, calls := 1, sleeps := 0 }
          else
            let rest := retryLoop op retryable (attempt + 1) fuel (some e)
            { result := rest.result, calls := rest.calls + 1, sleeps := rest.sleeps + 1 }
        else
          { result := RetryResult.raised e, calls := 1, sleeps := 0 } := rfl

/-- If every attempt in the window fails with a retryable exception, the
loop performs every attempt and ends by re-raising the exception of the
final one, sleeping between consecutive attempts only. -/
theorem retryLoop_all_fail (op : Nat → CallOutcome α) (retryable : List String)
    (e : Nat → PyExc) :
    ∀ fuel attempt last, 1 ≤ fuel →
    (∀ i, attempt ≤ i → i < attempt + fuel →
      op i = CallOutcome.exn (e i) ∧ (e i).kind ∈ retryable) →
    retryLoop op retryable attempt fuel last =
      { result := RetryResult.raised (e (attempt + fuel - 1))
        calls := fuel
        sleeps := fuel - 1 } := by
  intro fuel
  induction fuel with
  | zero => intro attempt last h; omega
  | succ f ihf =>
    intro attempt last _ hall
    have h1 := hall attempt (Nat.le_refl _) (by omega)
    cases f with
    | zero =>
      simp [retryLoop, h1.1, h1.2]
    | succ f' =>
      have hrest := ihf (attempt + 1) (some (e attempt)) (by omega)
        (fun i hi1 hi2 => hall i (by omega) (by omega))
      have harg : attempt + 1 + (f' + 1) - 1 = attempt + (f' + 1 + 1) - 1 := by omega
      rw [retryLoop_succ_eq]
      simp only [h1.1]
      rw [if_pos h1.2, if_neg (Nat.succ_ne_zero f')]
      simp only [hrest, harg]
      simp

/-- C4: when the operation fails with a retryable exception kind on every
attempt, the wrapped call invokes it exactly `max_attempts` times and
then re-raises the exception of the final attempt unchanged (same kind,
same message), with `max_attempts - 1` inter-attempt sleeps. -/
theorem retry_exhausts_attempts (maxA : Nat) (retryable : List String)
    (op : Nat → CallOutcome α) (e : Nat → PyExc)
    (hmax : 1 ≤ maxA)
    (hop : ∀ i, 1 ≤ i → i ≤ maxA → op i = CallOutcome.exn (e i))
    (hret : ∀ i, 1 ≤ i → i ≤ maxA → (e i).kind ∈ retryable) :
    retry maxA retryable op =
      { result := RetryResult.raised (e maxA), calls := maxA, sleeps := maxA - 1 } := by
  have h := retryLoop_all_fail op retryable e maxA 1 none hmax
    (fun i hi1 hi2 => ⟨hop i hi1 (by omega), hret i hi1 (by omega)⟩)
  have harg : 1 + maxA - 1 = maxA := by omega
  rw [harg] at h
  exact h

/-- C4 witness: an operation that always raises a stale-element error,
with `max_attempts = 2`. -/
theorem retry_exhausts_attempts_witness :
    retry 2 ["StaleElementReferenceException"]
      (fun _ => (CallOutcome.exn ⟨"StaleElementReferenceException", "stale element"⟩ :
        CallOutcome Nat)) =
      { result := RetryResult.raised ⟨"StaleElementReferenceException", "stale element"⟩
        calls := 2
        sleeps := 1 } :=
  retry_exhausts_attempts 2 ["StaleElementReferenceException"]
    (fun _ => CallOutcome.exn ⟨"StaleElementReferenceException", "stale element"⟩)
    (fun _ => ⟨"StaleElementReferenceException", "stale element"⟩)
    (by decide) (fun _ _ _ => rfl) (fun _ _ _ => by simp)

/-- If the first `k` attempts fail retryably and attempt `k + 1` succeeds
while fuel remains, the loop returns the success value after `k + 1`
invocations and `k` sleeps. -/
theorem retryLoop_succeeds (op : Nat → CallOutcome α) (retryable : List String)
    (e : Nat → PyExc) (v : α) :
    ∀ k attempt fuel last, k < fuel →
    (∀ i, attempt ≤ i → i < attempt + k →
      op i = CallOutcome.exn (e i) ∧ (e i).kind ∈ retryable) →
    op (attempt + k) = CallOutcome.ok v →
    retryLoop op retryable attempt fuel last =
      { result := RetryResult.value v, calls := k + 1, sleeps := k } := by
  intro k
  induction k with
  | zero =>
    intro attempt fuel last hk hall hsucc
    rw [Nat.add_zero] at hsucc
    cases fuel with
    | zero => omega
    | succ f => simp [retryLoop, hsucc]
  | succ k ihk =>
    intro attempt fuel last hk hall hsucc
    have h1 := hall attempt (Nat.le_refl _) (by omega)
    cases fuel with
    | zero => omega
    | succ f =>
      have hf : f ≠ 0 := by omega
      have hrest := ihk (attempt + 1) f (some (e attempt)) (by omega)
        (fun i hi1 hi2 => hall i (by omega) (by omega))
        (by rw [show attempt + 1 + k = attempt + (k + 1) by omega]; exact hsucc)
      rw [retryLoop_succ_eq]
      simp only [h1.1]
      rw [if_pos h1.2, if_neg hf]
      simp only [hrest]

/-- C5: when the operation fails with a retryable kind on its first `k`
calls (`k < max_attempts`) and succeeds on call `k + 1`, the wrapped call
returns the success value and the operation was invoked exactly `k + 1`
times (with `k` sleeps in between). -/
theorem retry_succeeds_after_k (maxA k : Nat) (retryable : List String)
    (op : Nat → CallOutcome α) (e : Nat → PyExc) (v : α)
    (hk : k < maxA)
    (hfail : ∀ i, 1 ≤ i → i ≤ k →
      op i = CallOutcome.exn (e i) ∧ (e i).kind ∈ retryable)
    (hsucc : op (k + 1) = CallOutcome.ok v) :
    retry maxA retryable op =
      { result := RetryResult.value v, calls := k + 1, sleeps := k } :=
  retryLoop_succeeds op retryable e v k 1 maxA none hk
    (fun i hi1 hi2 => hfail i hi1 (by omega))
    (by rw [show 1 + k = k + 1 by omega]; exact hsucc)

/-- C5 witness: fails once with a stale-element error, then returns 42;
`max_attempts = 3`, so the call returns 42 after 2 invocations. -/
theorem retry_succeeds_after_k_witness :
    retry 3 ["StaleElementReferenceException"]
      (fun i => if i = 1
        then (CallOutcome.exn ⟨"StaleElementReferenceException", "stale element"⟩ :
          CallOutcome Nat)
        else CallOutcome.ok 42) =
      { result := RetryResult.value 42, calls := 2, sleeps := 1 } :=
  retry_succeeds_after_k 3 1 ["StaleElementReferenceException"]
    (fun i => if i = 1
      then CallOutcome.exn ⟨"StaleElementReferenceException", "stale element"⟩
      else CallOutcome.ok 42)
    (fun _ => ⟨"StaleElementReferenceException", "stale element"⟩) 42
    (by decide)
    (fun i hi1 hi2 => by
      have hi : i = 1 := Nat.le_antisymm hi2 hi1
      subst hi
      exact ⟨rfl, by decide⟩)
    rfl

/-- Every run of at least one attempt sleeps exactly once less than it
calls the operation: the delay is applied only between consecutive
attempts. -/
theorem retryLoop_sleeps_calls (op : Nat → CallOutcome α) (retryable : List String) :
    ∀ fuel attempt last, 1 ≤ fuel →
    (retryLoop op retryable attempt fuel last).sleeps + 1 =
      (retryLoop op retryable attempt fuel last).calls := by
  intro fuel
  induction fuel with
  | zero => intro attempt last h; omega
  | succ f ihf =>
    intro attempt last _
    rw [retryLoop_succ_eq]
    cases hop : op attempt with
    | ok v => simp only [hop]
    | exn e =>
      simp only [hop]
      by_cases hr : e.kind ∈ retryable
      · rw [if_pos hr]
        cases f with
        | zero => rfl
        | succ f' =>
          rw [if_neg (Nat.succ_ne_zero f')]
          have hih := ihf (attempt + 1) (some e) (by omega)
          exact congrArg (fun n => n + 1) hih
      · rw [if_neg hr]

/-- C6: an operation failing with a non-retryable kind is invoked exactly
once and its exception propagates at once with no sleep; and in general a
run of `n` attempts sleeps exactly `n - 1` times (never before the first
attempt or after the last). -/
theorem retry_nonretryable_immediate (maxA : Nat) (retryable : List String)
    (op : Nat → CallOutcome α) (hmax : 1 ≤ maxA) :
    (∀ e, op 1 = CallOutcome.exn e → e.kind ∉ retryable →
      retry maxA retryable op =
        { result := RetryResult.raised e, calls := 1, sleeps := 0 }) ∧
    (retry maxA retryable op).sleeps + 1 = (retry maxA retryable op).calls := by
  constructor
  · intro e hop hkind
    obtain ⟨f, rfl⟩ : ∃ f, maxA = f + 1 := ⟨maxA - 1, by omega⟩
    simp [retry, retryLoop, hop, hkind]
  · exact retryLoop_sleeps_calls op retryable maxA 1 none hmax

/-- C6 witness: a timeout (not in the stale-element retryable set)
propagates from the first attempt with no sleep, and the sleep count is
one less than the call count. -/
theorem retry_nonretryable_immediate_witness :
    retry 3 ["StaleElementReferenceException"]
      (fun _ => (CallOutcome.exn ⟨"TimeoutException", "timed out"⟩ : CallOutcome Nat)) =
      { result := RetryResult.raised ⟨"TimeoutException", "timed out"⟩
        calls := 1
        sleeps := 0 } ∧
    (retry 3 ["StaleElementReferenceException"]
      (fun _ => (CallOutcome.exn ⟨"TimeoutException", "timed out"⟩ : CallOutcome Nat))).sleeps + 1 =
    (retry 3 ["StaleElementReferenceException"]
      (fun _ => (CallOutcome.exn ⟨"TimeoutException", "timed out"⟩ : CallOutcome Nat))).calls :=
  ⟨(retry_nonretryable_immediate 3 ["StaleElementReferenceException"] _ (by decide)).1
      ⟨"TimeoutException", "timed out"⟩ rfl (by decide),
    (retry_nonretryable_immediate 3 ["StaleElementReferenceException"] _ (by decide)).2⟩

/-! ## HTTP request wrapper (src/services/api_client.py) -/

/-- Boolean sublist test used to model Python's `"json" in content_type`. -/
def charsLeadWith : List Char → List Char → Bool
  | [], _ => true
  | _ :: _, [] => false
  | a :: as, b :: bs => a == b && charsLeadWith as bs

/-- `needle` occurs as a contiguous run inside `hay`. -/
def charsContain (needle : List Char) : List Char → Bool
  | [] => needle.isEmpty
  | c :: cs => charsLeadWith needle (c :: cs) || charsContain needle cs

/-- Python `"json" in content_type`. -/
def contentTypeIsJson (ct : String) : Bool :=
  charsContain "json".toList ct.toList

/-- What `self.session.request(...)` can do, as `_request` observes it:
deliver a response (status, content-type header, the result of
`resp.json()` where `none` is a `ValueError`, remaining headers), raise
`requests.Timeout`, or raise another `requests.RequestException` whose
`str()` is `msg`.  `β` is the type of parsed JSON bodies. -/
inductive SessionOutcome (β : Type) where
  | resp (status : Nat) (content_type : String) (json : Option β)
      (headers : List (String × String))
  | timeout
  | reqError (msg : String)

/-- Embedding of the `ApiResponse` dataclass (src/services/api_client.py:28-37). -/
structure ApiResponse (β : Type) where
  status_code : Nat
  response_time_ms : ℚ
  body : Option β
  headers : List (String × String)
  is_success : Bool
  error_message : Option String

/-- `requests.Response.ok`: true unless `raise_for_status` would raise,
i.e. unless the status is a 4xx or 5xx. -/
def respOk (status : Nat) : Bool :=
  decide (status < 400 ∨ 600 ≤ status)

/-- Embedding of `ApiClient._request` (src/services/api_client.py:81-155):
a delivered response is parsed as JSON only when the content-type mentions
json and classified with `resp.ok`; a `Timeout` or `RequestException` is
converted, not re-raised, into a status-0 failure response carrying an
error message.  The function is total: `_request` never raises.
`api_timeout` is `settings.API_TIMEOUT`; `elapsed` is the measured wall
time, an input to the model. -/
def apiRequest (api_timeout : Nat) (elapsed : ℚ) (out : SessionOutcome β) :
    ApiResponse β :=
  match out with
  | SessionOutcome.resp status ct json hs =>
    { status_code := status
      response_time_ms := elapsed
      body := if contentTypeIsJson ct then json else none
      headers := hs
      is_success := respOk status
      error_message := none }
  | SessionOutcome.timeout =>
    { status_code := 0
      response_time_ms := elapsed
      body := none
      headers := []
      is_success := false
      error_message := some (String.append "Timeout after "
        (String.append (toString api_timeout) "s")) }
  | SessionOutcome.reqError msg =>
    { status_code := 0
      response_time_ms := elapsed
      body := none
      headers := []
      is_success := false
      error_message := some msg }

/-- C7 counterexample: on a network failure the error message is
`str(exc)` (src/services/api_client.py:154), so an exception that
stringifies to the empty string — e.g. `requests.RequestException()`
raised with no arguments — yields `error_message = some ""`: present but
empty, refuting the claim's unconditionally non-empty error message for
network failures. -/
theorem apiRequest_empty_error_counterexample :
    (apiRequest 15 100 (SessionOutcome.reqError "" : SessionOutcome Nat)).status_code = 0 ∧
    (apiRequest 15 100 (SessionOutcome.reqError "" : SessionOutcome Nat)).is_success = false ∧
    (apiRequest 15 100 (SessionOutcome.reqError "" : SessionOutcome Nat)).error_message =
      some "" :=
  ⟨rfl, rfl, rfl⟩

/-- C7 (amended): `_request` (a total function here: it never raises)
returns, on a timeout or network failure, a response with status 0,
`is_success` false and an error message that is always set — for
timeouts a provably non-empty string, for network failures the
exception's text `str(exc)`, non-empty exactly when that text is; and on
every response it produces, `is_success` is true iff the status code is
an HTTP status (not the 0 of "no response") outside the 4xx/5xx error
ranges — given that genuine HTTP responses carry a status in [100, 600),
that is exactly the conventional ok range below 400. -/
theorem apiRequest_total_and_classified (api_timeout : Nat) (elapsed : ℚ)
    (out : SessionOutcome β)
    (hstatus : ∀ s ct j hs, out = SessionOutcome.resp s ct j hs → 100 ≤ s ∧ s < 600) :
    ((out = SessionOutcome.timeout ∨ ∃ m, out = SessionOutcome.reqError m) →
      (apiRequest api_timeout elapsed out).status_code = 0 ∧
      (apiRequest api_timeout elapsed out).is_success = false ∧
      (apiRequest api_timeout elapsed out).error_message ≠ none) ∧
    (out = SessionOutcome.timeout →
      ∃ m, (apiRequest api_timeout elapsed out).error_message = some m ∧ m ≠ "") ∧
    (∀ msg, out = SessionOutcome.reqError msg →
      (apiRequest api_timeout elapsed out).error_message = some msg) ∧
    ((apiRequest api_timeout elapsed out).is_success = true ↔
      ((apiRequest api_timeout elapsed out).status_code ≠ 0 ∧
        (apiRequest api_timeout elapsed out).status_code < 400)) := by
  cases out with
  | resp s ct j hs =>
    obtain ⟨h100, h600⟩ := hstatus s ct j hs rfl
    refine ⟨?_, ?_, ?_, ?_⟩
    · rintro (h | ⟨m, h⟩) <;> cases h
    · intro h; cases h
    · intro msg h; cases h
    · simp only [apiRequest, respOk]
      constructor
      · intro h
        rcases of_decide_eq_true h with h' | h'
        · exact ⟨by omega, h'⟩
        · omega
      · intro ⟨_, h'⟩
        exact decide_eq_true (Or.inl h')
  | timeout =>
    refine ⟨fun _ => ⟨rfl, rfl, by simp [apiRequest]⟩, ?_, ?_, ?_⟩
    · intro _
      refine ⟨_, rfl, ?_⟩
      intro h
      have hd : "Timeout after ".data ++ ((toString api_timeout).append "s").data =
          ([] : List Char) := congrArg String.data h
      exact absurd (List.append_eq_nil.mp hd).1 (by decide)
    · intro msg h; cases h
    · simp [apiRequest]
  | reqError msg =>
    refine ⟨fun _ => ⟨rfl, rfl, by simp [apiRequest]⟩, ?_, ?_, ?_⟩
    · intro h; cases h
    · intro m h
      cases h
      rfl
    · simp [apiRequest]

/-- C7 witness: a timed-out request (with JSON bodies read as `Nat`),
15-second configured timeout, 15002.37 ms measured. -/
theorem apiRequest_total_and_classified_witness :
    ((SessionOutcome.timeout = (SessionOutcome.timeout : SessionOutcome Nat) ∨
        ∃ m, (SessionOutcome.timeout : SessionOutcome Nat) = SessionOutcome.reqError m) →
      (apiRequest 15 (1500237 / 100) (SessionOutcome.timeout : SessionOutcome Nat)).status_code = 0 ∧
      (apiRequest 15 (1500237 / 100) (SessionOutcome.timeout : SessionOutcome Nat)).is_success = false ∧
      (apiRequest 15 (1500237 / 100) (SessionOutcome.timeout : SessionOutcome Nat)).error_message ≠ none) ∧
    ((SessionOutcome.timeout : SessionOutcome Nat) = SessionOutcome.timeout →
      ∃ m, (apiRequest 15 (1500237 / 100) (SessionOutcome.timeout : SessionOutcome Nat)).error_message
          = some m ∧ m ≠ "") ∧
    (∀ msg, (SessionOutcome.timeout : SessionOutcome Nat) = SessionOutcome.reqError msg →
      (apiRequest 15 (1500237 / 100) (SessionOutcome.timeout : SessionOutcome Nat)).error_message
        = some msg) ∧
    ((apiRequest 15 (1500237 / 100) (SessionOutcome.timeout : SessionOutcome Nat)).is_success = true ↔
      ((apiRequest 15 (1500237 / 100) (SessionOutcome.timeout : SessionOutcome Nat)).status_code ≠ 0 ∧
        (apiRequest 15 (1500237 / 100) (SessionOutcome.timeout : SessionOutcome Nat)).status_code < 400)) :=
  apiRequest_total_and_classified 15 (1500237 / 100) SessionOutcome.timeout
    (fun _ _ _ _ h => SessionOutcome.noConfusion h)

/-! ## Cross-layer price check (src/tests/ui/test_cross_layer.py)

The cross-layer test's step 4 begins, at line 95, with
`data = api_response.json_body`.  The frozen `ApiResponse` dataclass
(src/services/api_client.py:28-37) declares no attribute of that name —
its payload field is `body`, the name every other test uses — so this
access raises `AttributeError` on every response, before any price is
extracted or compared.  The definitions below therefore split in two:
the attribute lookup of line 95 (the part that actually runs), and a
transcription of the extraction/comparison of lines 98-135, which as
written is dead code. -/

/-- The payload-attribute lookup of line 95: reading the parsed JSON
payload of an `ApiResponse` under the attribute name `name`.  The frozen
dataclass declares the payload field as `body`; any other name raises
`AttributeError`, modelled `none`. -/
def readResponseAttr (name : String) (resp : ApiResponse β) : Option (Option β) :=
  if name = "body" then some resp.body else none

/-- C8: the cross-layer test crashes before its price comparison.  At
src/tests/ui/test_cross_layer.py:95 it reads `api_response.json_body`,
but `ApiResponse` names its payload field `body`, so the access raises
`AttributeError` (modelled `none`) on every response `_request` can
produce, and the pass/fail/skip logic below it (transcribed as
`crossLayerPriceCheck`) is unreachable; reading the correctly named
`body` attribute would have returned the parsed payload. -/
theorem cross_layer_json_body_attribute_error :
    (∀ (out : SessionOutcome Nat) (elapsed : ℚ),
      readResponseAttr "json_body" (apiRequest 15 elapsed out) = none) ∧
    readResponseAttr "body"
      (apiRequest 15 100 (SessionOutcome.resp 200 "application/json" (some 1) [])) =
      some (some 1) := by
  constructor
  · intro out elapsed
    simp [readResponseAttr]
  · decide

/-- The SKU entry the dead extraction code of
src/tests/ui/test_cross_layer.py:109-118 would read, had line 95 not
raised: the three price field aliases it probes, `none` when the field
is absent (or JSON null). -/
structure SkuData where
  price : Option ℚ
  selling_price : Option ℚ
  sp : Option ℚ

/-- Transcription of the (unreachable, see
`cross_layer_json_body_attribute_error`) API-price extraction of
`test_pdp_price_matches_api_price` (src/tests/ui/test_cross_layer.py:
110-118): `float(sku_data.get("price", 0) or 0)`, and if that is 0,
`float(sku_data.get("selling_price", 0) or sku_data.get("sp", 0) or 0)`. -/
def extractApiPrice (sku : SkuData) : ℚ :=
  if sku.price.getD 0 = 0 then
    if sku.selling_price.getD 0 ≠ 0 then sku.selling_price.getD 0
    else sku.sp.getD 0
  else sku.price.getD 0

/-- Outcome of the cross-layer comparison: assertion passes, assertion
fails, or `pytest.skip` (inconclusive). -/
inductive PriceCheck where
  | passed
  | failed
  | inconclusive
deriving DecidableEq

/-- Transcription of the (unreachable, see
`cross_layer_json_body_attribute_error`) comparison step of the
cross-layer test (src/tests/ui/test_cross_layer.py:120-135): skip when
no price could be extracted, otherwise assert
`|ui_price - api_price| <= 1.0`. -/
def crossLayerPriceCheck (ui_price : ℚ) (sku : SkuData) : PriceCheck :=
  if extractApiPrice sku = 0 then PriceCheck.inconclusive
  else if |ui_price - extractApiPrice sku| ≤ 1 then PriceCheck.passed
  else PriceCheck.failed

/-! ## Document-ready polling condition (src/utils/waits.py) -/

/-- Embedding of the `page_has_loaded` condition
(src/utils/waits.py:32-36): true exactly when the readiness query
(`driver.execute_script("return document.readyState")`) returned the
literal string "complete". -/
def page_has_loaded (readyState : String) : Bool :=
  readyState == "complete"

/-- The timeout failure of a wait, tagged with the condition and the
timeout involved (the spec's `WaitTimeoutError`). -/
structure WaitTimeoutError where
  condition : String
  timeout : Nat
deriving DecidableEq

/-- Modelled from the spec: the polling loop of §4.1 (implemented by the
external `WebDriverWait` library, not by this repository) evaluated in
discrete ticks — re-evaluate the condition each tick until it is truthy
or the fuel (ticks until the deadline) runs out, then fail with a
`WaitTimeoutError` naming the condition and timeout. -/
def waitUntilAux (cond : Nat → Bool) (name : String) (timeout : Nat) :
    Nat → Nat → Except WaitTimeoutError Nat
  | 0, _ => Except.error ⟨name, timeout⟩
  | fuel + 1, tick =>
    if cond tick then Except.ok tick
    else waitUntilAux cond name timeout fuel (tick + 1)

/-- Modelled from the spec: a wait call polls from tick 0 with `timeout`
ticks of budget; it returns the first tick at which the condition holds,
or a `WaitTimeoutError` if none does before the deadline. -/
def waitUntil (cond : Nat → Bool) (name : String) (timeout : Nat) :
    Except WaitTimeoutError Nat :=
  waitUntilAux cond name timeout timeout 0

/-- A condition that never holds makes the poll loop end in the timeout
error, whatever the fuel and starting tick. -/
theorem waitUntilAux_never (cond : Nat → Bool) (name : String) (timeout : Nat)
    (hc : ∀ t, cond t = false) :
    ∀ fuel tick, waitUntilAux cond name timeout fuel tick =
      Except.error ⟨name, timeout⟩ := by
  intro fuel
  induction fuel with
  | zero => intro tick; rfl
  | succ f ih => intro tick; simp [waitUntilAux, hc tick, ih]

/-- C9: the document-ready condition is true exactly when the readiness
query returns the literal "complete"; a wait on it resolves immediately
(at tick 0) when the query already returns "complete", and fails with a
`WaitTimeoutError` naming the condition and the timeout when the query
never returns "complete" before the deadline. -/
theorem page_has_loaded_wait_spec (ready : Nat → String) (timeout : Nat) :
    (∀ s, page_has_loaded s = true ↔ s = "complete") ∧
    (1 ≤ timeout → ready 0 = "complete" →
      waitUntil (fun t => page_has_loaded (ready t)) "page_has_loaded" timeout =
        Except.ok 0) ∧
    ((∀ t, ready t ≠ "complete") →
      waitUntil (fun t => page_has_loaded (ready t)) "page_has_loaded" timeout =
        Except.error ⟨"page_has_loaded", timeout⟩) := by
  refine ⟨fun s => by simp [page_has_loaded], ?_, ?_⟩
  · intro ht h0
    obtain ⟨f, rfl⟩ : ∃ f, timeout = f + 1 := ⟨timeout - 1, by omega⟩
    simp [waitUntil, waitUntilAux, page_has_loaded, h0]
  · intro hnever
    exact waitUntilAux_never _ _ _
      (fun t => by simp [page_has_loaded, hnever t]) timeout 0

/-- C9 witness: a page already complete resolves at tick 0 with a
5-tick budget; a page stuck in "loading" times out with the tagged
error. -/
theorem page_has_loaded_wait_spec_witness :
    waitUntil (fun t => page_has_loaded ((fun _ : Nat => "complete") t))
        "page_has_loaded" 5 = Except.ok 0 ∧
    waitUntil (fun t => page_has_loaded ((fun _ : Nat => "loading") t))
        "page_has_loaded" 5 = Except.error ⟨"page_has_loaded", 5⟩ :=
  ⟨(page_has_loaded_wait_spec (fun _ => "complete") 5).2.1 (by decide) rfl,
    (page_has_loaded_wait_spec (fun _ => "loading") 5).2.2 (fun t => by simp)⟩
